import Mathlib

/-!
Verification development for the order validation and execution pipeline of
the Binance-futures trading bot (source files `trading_bot/validation.py`,
`trading_bot/api_client.py`, `trading_bot/orders.py`).

The Python code is shallowly embedded: every validator becomes a total Lean
function returning `Except String Unit` (the `.error` payload is the message
of the raised `ValidationError`), the gateway and the executor become
functions parameterised by an explicit transport oracle, and CPython's
`float` constructor is modelled by `pyFloat?` below, character by character
over its ASCII grammar followed by correct rounding to binary64 (so
overflow to infinity and underflow to zero behave as in the program), with
`pyFloatRepr` reproducing CPython's shortest-round-trip float formatting.
-/

set_option maxRecDepth 65536
set_option maxHeartbeats 2000000

deriving instance DecidableEq for Except

namespace TradingBot

/-- ASCII whitespace characters stripped by CPython's `float` constructor. -/
def isWsChar (c : Char) : Bool :=
  c = ' ' || c = '\t' || c = '\n' || c = '\r' || c = '\x0b' || c = '\x0c'

/-- Uppercase ASCII letter test, the character class of the symbol pattern. -/
def isUpperAZ (c : Char) : Bool :=
  'A' ≤ c && c ≤ 'Z'

/-- Strip leading and trailing whitespace from a character list. -/
def stripWs (l : List Char) : List Char :=
  ((l.dropWhile isWsChar).reverse.dropWhile isWsChar).reverse

/-- Model of Python `str.upper()` on the ASCII inputs this pipeline handles. -/
def pyUpper (s : String) : String :=
  String.mk (s.data.map Char.toUpper)

/-- Python truthiness of an optional string argument: `None` and the empty
string are falsy, every other string is truthy. -/
def pyTruthyOpt : Option String → Bool
  | none => false
  | some s => s != ""

/-- A binary64 value as produced by CPython's `float` constructor: a finite
double given by its sign bit and its exact non-negative magnitude (every
finite double's magnitude is a rational of the form `m * 2 ^ e`), a signed
infinity, or a NaN. The sign bit is kept separately so that `-0.0` is
represented faithfully. -/
inductive PyVal where
  | finite (neg : Bool) (mag : ℚ)
  | inf (neg : Bool)
  | nan
deriving DecidableEq

/-- The IEEE comparison `v <= 0` used by the validators: false for NaN,
true for negative infinity, for `-inf` and for every finite value with the
sign bit set (its magnitude is non-negative, so its value is `<= 0`; this
includes `-0.0`), and the zero test on the magnitude otherwise (`+0.0 <= 0`
holds). -/
def PyVal.le0 : PyVal → Bool
  | .finite neg mag => neg || decide (mag ≤ 0)
  | .inf neg => neg
  | .nan => false

/-- Binary length of a natural number (`bitLen 0 = 0`, otherwise
`floor (log2 n) + 1`). The first argument is fuel consumed once per halving;
`bitLen` supplies `n` itself, which always suffices, keeping the recursion
structural (and so kernel-computable) while correct for every input. -/
def bitLenAux : Nat → Nat → Nat
  | 0, _ => 0
  | fuel + 1, n => if n = 0 then 0 else bitLenAux fuel (n / 2) + 1

/-- Binary length of a natural number. -/
def bitLen (n : Nat) : Nat := bitLenAux n n

/-- Decimal length of a natural number (`digLen 0 = 1`), fueled like
`bitLenAux`. -/
def digLenAux : Nat → Nat → Nat
  | 0, _ => 0
  | fuel + 1, n => if n < 10 then 1 else digLenAux fuel (n / 10) + 1

/-- Decimal length of a natural number. -/
def digLen (n : Nat) : Nat := digLenAux (n + 1) n

/-- Decimal digit characters of a natural number, most significant first. -/
def natToDigitsAux : Nat → Nat → List Char
  | 0, _ => []
  | fuel + 1, n =>
    if n < 10 then [Char.ofNat (48 + n)]
    else natToDigitsAux fuel (n / 10) ++ [Char.ofNat (48 + n % 10)]

/-- Decimal digit characters of a natural number, most significant first. -/
def natToDigits (n : Nat) : List Char := natToDigitsAux (n + 1) n

/-- Round the exact positive rational `n / d` to the binary64 grid with
round-to-nearest, ties-to-even: `none` is overflow to infinity (magnitude at
least `2 ^ 1024` after rounding), `some 0` is underflow to zero (inputs up
to and including `2 ^ (-1075)`), and otherwise `some mag` is the exact
magnitude `m * 2 ^ step` of the resulting double (subnormals included via
the `step = -1074` grid). -/
def roundPos (n d : Nat) : Option ℚ :=
  if n = 0 then some 0
  else
    let g : Int := (bitLen n : Int) - bitLen d
    let E : Int :=
      if (if 0 ≤ g then d * 2 ^ g.toNat ≤ n else d ≤ n * 2 ^ (-g).toNat)
      then g else g - 1
    let step : Int := if E - 52 < -1074 then -1074 else E - 52
    let A := n * 2 ^ (-step).toNat
    let B := d * 2 ^ step.toNat
    let m0 := A / B
    let r := A % B
    let m :=
      if 2 * r < B then m0
      else if B < 2 * r then m0 + 1
      else if m0 % 2 = 0 then m0 else m0 + 1
    let ov : Bool :=
      if 1024 ≤ step then true else decide (2 ^ (1024 - step).toNat ≤ m)
    if ov then none
    else if m = 0 then some 0
    else
      some (if 0 ≤ step then Rat.divInt ((m : Int) * 2 ^ step.toNat) 1
            else Rat.divInt (m : Int) ((2 : Int) ^ (-step).toNat))

/-- Digit-run scanner of the CPython float grammar: consumes
`digit (["_"] digit)*` (an underscore is legal only between two digits) and
returns the accumulated value, the number of digits consumed, and the rest. -/
def digitsCont : Nat → Nat → List Char → Nat × Nat × List Char
  | acc, nd, [] => (acc, nd, [])
  | acc, nd, [c] =>
    if c.isDigit then (10 * acc + (c.toNat - 48), nd + 1, [])
    else (acc, nd, [c])
  | acc, nd, c :: d :: cs =>
    if c.isDigit then
      digitsCont (10 * acc + (c.toNat - 48)) (nd + 1) (d :: cs)
    else if nd ≠ 0 ∧ c = '_' ∧ d.isDigit then
      digitsCont (10 * acc + (d.toNat - 48)) (nd + 1) cs
    else (acc, nd, c :: d :: cs)

/-- Optional sign at the start of a float literal; `true` means negative. -/
def splitSign : List Char → Bool × List Char
  | '+' :: cs => (false, cs)
  | '-' :: cs => (true, cs)
  | cs => (false, cs)

/-- Lowercase a character list (for the case-insensitive inf/nan keywords). -/
def lowerList (l : List Char) : List Char :=
  l.map Char.toLower

/-- Mantissa of a float literal: `digitpart ["." [digitpart]]` or
`"." digitpart`. The value is returned as the pair of the digit string read
as an integer and the number of fractional digits, so the mantissa denotes
`value / 10 ^ fracDigits`. -/
def parseMant (l : List Char) : Option ((Nat × Nat) × List Char) :=
  match digitsCont 0 0 l with
  | (ip, ind, r1) =>
    match r1 with
    | '.' :: r2 =>
      match digitsCont 0 0 r2 with
      | (fp, fnd, r3) =>
        if ind = 0 ∧ fnd = 0 then none
        else some ((ip * 10 ^ fnd + fp, fnd), r3)
    | _ => if ind = 0 then none else some ((ip, 0), r1)

/-- Optional exponent part `("e"|"E") [sign] digitpart` of a float literal;
when the head is not an exponent marker the input is returned unchanged. -/
def parseExp (l : List Char) : Option (Int × List Char) :=
  match l with
  | [] => some (0, [])
  | c :: r1 =>
    if c = 'e' ∨ c = 'E' then
      match splitSign r1 with
      | (negE, r2) =>
        match digitsCont 0 0 r2 with
        | (ev, en, r3) =>
          if en = 0 then none
          else some ((if negE then -(ev : Int) else (ev : Int)), r3)
    else some (0, c :: r1)

/-- Model of CPython's `float(s)` on ASCII input: strip whitespace, read an
optional sign, accept the keywords inf/infinity/nan case-insensitively, else
parse `mantissa [exponent]`, require the input to be exhausted, and round
the exact decimal value to the nearest binary64 value (ties to even) —
overflowing to a signed infinity and underflowing to a signed zero, exactly
as the C library conversion CPython delegates to. -/
def pyFloat? (s : String) : Option PyVal :=
  let l := stripWs s.data
  if l = [] then none
  else
    match splitSign l with
    | (neg, r) =>
      let lw := lowerList r
      if lw = "inf".data ∨ lw = "infinity".data then some (.inf neg)
      else if lw = "nan".data then some .nan
      else
        match parseMant r with
        | none => none
        | some ((m, fnd), r1) =>
          match parseExp r1 with
          | none => none
          | some (e, r2) =>
            if r2 = [] then
              let ex : Int := e - (fnd : Int)
              match roundPos (m * 10 ^ ex.toNat) (10 ^ (-ex).toNat) with
              | none => some (.inf neg)
              | some mag => some (.finite neg mag)
            else none

/-- `floor (log10 (num / den))` for positive `num / den`, via decimal
lengths and one exact comparison. -/
def decExp (num den : Nat) : Int :=
  let l0 : Int := (digLen num : Int) - digLen den
  if (if 0 ≤ l0 then den * 10 ^ l0.toNat ≤ num else den ≤ num * 10 ^ (-l0).toNat)
  then l0 else l0 - 1

/-- The double denoted by the decimal `c * 10 ^ (k - p + 1)` (the `p`-digit
significand `c` whose leading digit has weight `10 ^ k`): `none` on overflow. -/
def decToDouble (c : Nat) (k : Int) (p : Nat) : Option ℚ :=
  let ex : Int := k - (p : Int) + 1
  roundPos (c * 10 ^ ex.toNat) (10 ^ (-ex).toNat)

/-- The two `p`-digit decimal significands bracketing the positive value
`num / den` (with `k = floor (log10 (num / den))`), nearest first — ties by
the even last digit, as in the shortest-repr algorithm; a carry out of `p`
digits bumps the decimal exponent. -/
def decCandidates (num den : Nat) (k : Int) (p : Nat) :
    (Nat × Int) × (Nat × Int) :=
  let s : Int := (p : Int) - 1 - k
  let A := num * 10 ^ s.toNat
  let B := den * 10 ^ (-s).toNat
  let c0 := A / B
  let r := A % B
  let lo := (c0, k)
  let hi := if c0 + 1 = 10 ^ p then (10 ^ (p - 1), k + 1) else (c0 + 1, k)
  if r = 0 then (lo, lo)
  else if 2 * r < B then (lo, hi)
  else if B < 2 * r then (hi, lo)
  else if c0 % 2 = 0 then (lo, hi)
  else (hi, lo)

/-- Shortest-round-trip digit search of CPython's float repr: for
`p = 1, 2, ...` take the `p`-digit decimal nearest the double `mag`
(second-nearest as fallback) and return the first one that parses back to
exactly `mag`; 17 significant digits always round-trip for binary64, so the
fuel is never exhausted on a genuine double. -/
def shortLoop (num den : Nat) (mag : ℚ) (k : Int) : Nat → Nat → Nat × Int
  | 0, p => (decCandidates num den k p).1
  | fuel + 1, p =>
    match decCandidates num den k p with
    | (pri, sec) =>
      if decToDouble pri.1 pri.2 p = some mag then pri
      else if decToDouble sec.1 sec.2 p = some mag then sec
      else shortLoop num den mag k fuel (p + 1)

/-- CPython's layout of the shortest digits `ds` of a float whose leading
digit has weight `10 ^ k`: positional when `-4 <= k < 16`, else scientific
with an explicit exponent sign and at least two exponent digits. -/
def formatDigits (ds : List Char) (k : Int) : String :=
  if k < -4 ∨ 16 ≤ k then
    match ds with
    | [] => "0"
    | dh :: dt =>
      String.mk [dh] ++ (if dt = [] then "" else "." ++ String.mk dt) ++ "e" ++
        (if k < 0 then "-" else "+") ++
        (let es := natToDigits k.natAbs
         if es.length < 2 then String.mk ('0' :: es) else String.mk es)
  else
    let ip : Int := k + 1
    if ip ≤ 0 then
      "0." ++ String.mk (List.replicate (-ip).toNat '0') ++ String.mk ds
    else if (ds.length : Int) ≤ ip then
      String.mk ds ++ String.mk (List.replicate (ip - ds.length).toNat '0') ++ ".0"
    else String.mk (ds.take ip.toNat) ++ "." ++ String.mk (ds.drop ip.toNat)

/-- Model of CPython's `repr`/`str` of a float, as interpolated by the
validators' f-strings: the sign, then the shortest decimal digit string that
round-trips to the same double, laid out by `formatDigits` (so `0.0`,
`-0.0`, `-5.0`, `0.1`, `1e-10`, `1e+16`, `5e-324`, `inf`, `nan`, ...). -/
def pyFloatRepr : PyVal → String
  | .inf neg => if neg then "-inf" else "inf"
  | .nan => "nan"
  | .finite neg mag =>
    let sign := if neg then "-" else ""
    if mag = 0 then sign ++ "0.0"
    else
      let num := mag.num.toNat
      let den := mag.den
      match shortLoop num den mag (decExp num den) 17 1 with
      | (c, k) => sign ++ formatDigits (natToDigits c) k

/-! ## Validators (`trading_bot/validation.py`)

Each `validate_*` function returns `.error msg` exactly when the Python
function raises `ValidationError(msg)`, and `.ok ()` when it returns. The
`isinstance` guards of the source are vacuous here because the embedding is
typed. The `config.py` constants are reproduced verbatim. -/

/-- `ALLOWED_ORDER_SIDES` from `config.py`. -/
def ALLOWED_ORDER_SIDES : List String := ["BUY", "SELL"]

/-- `ALLOWED_ORDER_TYPES` from `config.py`. -/
def ALLOWED_ORDER_TYPES : List String := ["MARKET", "LIMIT"]

/-- Full-match test of `re.match(r"^[A-Z]+USDT$", ·)` on a character list
without a trailing newline: at least one uppercase letter followed by the
literal `USDT`, i.e. all uppercase, ending in `USDT`, length at least 5. -/
def symbolCoreMatch (l : List Char) : Bool :=
  decide (5 ≤ l.length) && l.all isUpperAZ &&
    decide (l.drop (l.length - 4) = "USDT".data)

/-- `InputValidator.SYMBOL_PATTERN.match(s)` — in Python's `re`, `$` also
matches just before one trailing newline. -/
def symbolMatches (s : String) : Bool :=
  symbolCoreMatch s.data ||
    (s.data.getLast? == some '\n' && symbolCoreMatch s.data.dropLast)

/-- `InputValidator.validate_symbol`. -/
def validate_symbol (symbol : String) : Except String Unit :=
  if symbol = "" then .error "Symbol cannot be empty"
  else if symbolMatches symbol then .ok ()
  else .error ("Invalid symbol format: '" ++ symbol ++
    "'. Expected format: XXXUSDT (e.g., BTCUSDT, ETHUSDT)")

/-- `InputValidator.validate_side`. -/
def validate_side (side : String) : Except String Unit :=
  if side = "" then .error "Side cannot be empty"
  else if ALLOWED_ORDER_SIDES.contains (pyUpper side) then .ok ()
  else .error ("Invalid side: '" ++ side ++ "'. Allowed values: " ++
    String.intercalate ", " ALLOWED_ORDER_SIDES)

/-- `InputValidator.validate_order_type`. -/
def validate_order_type (order_type : String) : Except String Unit :=
  if order_type = "" then .error "Order type cannot be empty"
  else if ALLOWED_ORDER_TYPES.contains (pyUpper order_type) then .ok ()
  else .error ("Invalid order type: '" ++ order_type ++ "'. Allowed values: " ++
    String.intercalate ", " ALLOWED_ORDER_TYPES)

/-- `InputValidator.validate_quantity`: empty is rejected, then `float()` is
attempted, then the parsed value is rejected when it compares `<= 0`. -/
def validate_quantity (quantity : String) : Except String Unit :=
  if quantity = "" then .error "Quantity cannot be empty"
  else
    match pyFloat? quantity with
    | none => .error ("Quantity must be numeric, got: '" ++ quantity ++ "'")
    | some v =>
      if v.le0 then .error ("Quantity must be positive, got: " ++ pyFloatRepr v)
      else .ok ()

/-- `InputValidator.validate_price`: for LIMIT the price must be truthy,
parse, and not compare `<= 0`; for MARKET (and any other type) nothing is
checked — a truthy price on MARKET only produces a log warning. -/
def validate_price (price : Option String) (order_type : String) :
    Except String Unit :=
  if pyUpper order_type = "LIMIT" then
    if ¬ pyTruthyOpt price then .error "Price is required for LIMIT orders"
    else
      match pyFloat? (price.getD "") with
      | none => .error ("Price must be numeric, got: '" ++ price.getD "" ++ "'")
      | some v =>
        if v.le0 then .error ("Price must be positive, got: " ++ pyFloatRepr v)
        else .ok ()
  else .ok ()

/-- `InputValidator.validate_all`: the five checks in source order, stopping
at the first failure. -/
def validate_all (symbol side order_type quantity : String)
    (price : Option String) : Except String Unit :=
  match validate_symbol symbol with
  | .error m => .error m
  | .ok _ =>
    match validate_side side with
    | .error m => .error m
    | .ok _ =>
      match validate_order_type order_type with
      | .error m => .error m
      | .ok _ =>
        match validate_quantity quantity with
        | .error m => .error m
        | .ok _ => validate_price price order_type

/-! ## Exchange gateway (`trading_bot/api_client.py`)

The underlying SDK call (`client.futures_create_order` and friends) is an
external collaborator; it is modelled as an explicit oracle that either
returns a raw response dictionary or raises one of the transport exceptions
caught by the source. A gateway function returns `.error m` exactly when the
Python method raises `APIError(m)`. -/

/-- A value of a raw response dictionary from the transport (treated
opaquely by the source: looked up, echoed, never interpreted). -/
inductive RespVal where
  | str (s : String)
  | num (v : PyVal)
  | null
deriving DecidableEq

/-- A raw response dictionary, as an association list with unique keys. -/
abbrev Response : Type := List (String × RespVal)

/-- Python `dict.get(key)`: the value when the key is present, else `None`. -/
def respGet (r : Response) (k : String) : Option RespVal :=
  match r with
  | [] => none
  | (k2, v) :: rest => if k2 = k then some v else respGet rest k

/-- The transport exceptions caught by `place_order`. The SDK's exception
classes are external to this repository; per the spec each member of the
first caught tuple (`BinanceAPIException`, `BinanceOrderException` and its
subclasses) exposes a status code and a message, `BinanceRequestException`
carries its `str(e)` rendering, and `otherExc` stands for any other
unexpected exception with its `str(e)` rendering. -/
inductive NativeExc where
  | apiExc (statusCode : Int) (message : String)
  | requestExc (message : String)
  | otherExc (message : String)
deriving DecidableEq

/-- The human-readable payload carried by a transport exception. -/
def NativeExc.message : NativeExc → String
  | .apiExc _ m => m
  | .requestExc m => m
  | .otherExc m => m

/-- Python `str(e)` for a transport exception, as used by the catch-all
handlers of `get_order` and `get_account_info`. -/
def NativeExc.strRepr : NativeExc → String
  | .apiExc code m => "APIError(code=" ++ toString code ++ "): " ++ m
  | .requestExc m => m
  | .otherExc m => m

/-- The `APIError` message produced by each `except` arm of `place_order`. -/
def formatNativeExc : NativeExc → String
  | .apiExc code m => "Binance API Error (" ++ toString code ++ "): " ++ m
  | .requestExc m => "Binance Request Error: " ++ m
  | .otherExc m => "Unexpected error during order placement: " ++ m

/-- The `params` dictionary `place_order` passes to
`client.futures_create_order`. `price = none` / `timeInForce = none` model
the key being absent; `price = some v` models the key present with Python
value `v` (`none` inside standing for Python `None`). -/
structure OrderParams where
  symbol : String
  side : String
  type : String
  quantity : PyVal
  price : Option (Option PyVal)
  timeInForce : Option String
deriving DecidableEq

/-- Construction of `params` in `place_order`: always symbol, uppercased
side and type, and quantity; price and timeInForce added only when the
uppercased type is `LIMIT`. -/
def buildParams (symbol side order_type : String) (quantity : PyVal)
    (price : Option PyVal) (time_in_force : String) : OrderParams :=
  let base : OrderParams :=
    { symbol := symbol, side := pyUpper side, type := pyUpper order_type,
      quantity := quantity, price := none, timeInForce := none }
  if pyUpper order_type = "LIMIT" then
    { base with price := some price, timeInForce := some time_in_force }
  else base

/-- `BinanceFuturesClient.place_order`: build the params, call the
transport, and translate every raised transport exception into a single
`APIError` via `formatNativeExc`. The Python default of the
`time_in_force` parameter is `"GTC"`. -/
def place_order (transport : OrderParams → Except NativeExc Response)
    (symbol side order_type : String) (quantity : PyVal)
    (price : Option PyVal) (time_in_force : String) : Except String Response :=
  match transport (buildParams symbol side order_type quantity price time_in_force) with
  | .ok resp => .ok resp
  | .error e => .error (formatNativeExc e)

/-- `BinanceFuturesClient.get_order` (transport call
`client.futures_get_order`, outcome passed as an oracle value). On a raised
transport exception the catch-all produces `APIError`. On transport success
the method evaluates the f-string
`f"Order details retrieved: {json.dumps(response, ...)}"`, but `api_client.py`
never imports `json`, so the lookup of the name `json` raises
`NameError("name 'json' is not defined")`, which the same catch-all turns
into an `APIError`; the method therefore never reaches its `return`. -/
def get_order (transport : Except NativeExc Response) (symbol : String)
    (order_id : Int) : Except String Response :=
  match transport with
  | .error e =>
      .error ("Error retrieving order " ++ toString order_id ++ ": " ++ e.strRepr)
  | .ok _ =>
      .error ("Error retrieving order " ++ toString order_id ++
        ": name 'json' is not defined")

/-- `BinanceFuturesClient.get_account_info` (transport call
`client.futures_account`): same shape as `get_order`, including the
`NameError` on the success path from the missing `json` import. -/
def get_account_info (transport : Except NativeExc Response) :
    Except String Response :=
  match transport with
  | .error e =>
      .error ("Error retrieving account information: " ++ e.strRepr)
  | .ok _ =>
      .error "Error retrieving account information: name 'json' is not defined"

/-! ## Order executor (`trading_bot/orders.py`) -/

/-- The display summary built by `OrderExecutor._generate_order_summary`;
the price entry is the price string for LIMIT and `"Market Price"`
otherwise. -/
structure OrderSummary where
  symbol : String
  side : String
  type : String
  quantity : String
  price : Option String
deriving DecidableEq

/-- `OrderExecutor._generate_order_summary`. -/
def generate_order_summary (symbol side order_type quantity : String)
    (price : Option String) : OrderSummary :=
  { symbol := symbol, side := pyUpper side, type := pyUpper order_type,
    quantity := quantity,
    price := if pyUpper order_type = "LIMIT" then price else some "Market Price" }

/-- The result dictionary built by `OrderExecutor._parse_order_response`:
a `success` flag plus exactly the nine echoed fields, each a `.get` lookup
into the raw response. -/
structure ExecutionResult where
  success : Bool
  orderId : Option RespVal
  symbol : Option RespVal
  side : Option RespVal
  type : Option RespVal
  quantity : Option RespVal
  price : Option RespVal
  status : Option RespVal
  executedQuantity : Option RespVal
  timestamp : Option RespVal
deriving DecidableEq

/-- `OrderExecutor._parse_order_response`. -/
def parse_order_response (response : Response) : ExecutionResult :=
  { success := true,
    orderId := respGet response "orderId",
    symbol := respGet response "symbol",
    side := respGet response "side",
    type := respGet response "type",
    quantity := respGet response "origQty",
    price := respGet response "price",
    status := respGet response "status",
    executedQuantity := respGet response "executedQty",
    timestamp := respGet response "updateTime" }

/-- The kinds of exception `execute_order` can let escape: the two typed
errors of its documented contract, and `pyError` for any other Python
exception (such as the `ValueError` of a failed `float()` call). -/
inductive ExecError where
  | validationError (msg : String)
  | apiError (msg : String)
  | pyError (excType msg : String)
deriving DecidableEq

/-- Observable side effects of one `execute_order` call, in order: the
console order summary of step 2 and the gateway invocation of step 4. -/
inductive Event where
  | summaryPrinted (summary : OrderSummary)
  | gatewayCalled (params : OrderParams)
deriving DecidableEq

/-- Step 3 of `execute_order`: `float(price) if price else None`. `none`
models the `ValueError` raised when a truthy price string does not parse;
`some none` models Python `None` for a falsy price. -/
def pyPriceConv (price : Option String) : Option (Option PyVal) :=
  match price with
  | none => some none
  | some s =>
    if s = "" then some none
    else
      match pyFloat? s with
      | none => none
      | some v => some (some v)

/-- `OrderExecutor.execute_order`: validate (re-raising `ValidationError`),
print the summary, convert quantity and price with `float()` (whose
`ValueError` is caught nowhere), call `place_order` (re-raising `APIError`),
and parse the response. The returned trace lists the summary emission and
the gateway invocation that actually happened. -/
def execute_order (transport : OrderParams → Except NativeExc Response)
    (symbol side order_type quantity : String) (price : Option String) :
    Except ExecError ExecutionResult × List Event :=
  match validate_all symbol side order_type quantity price with
  | .error m => (.error (.validationError m), [])
  | .ok _ =>
    let summary := generate_order_summary symbol side order_type quantity price
    match pyFloat? quantity with
    | none =>
        (.error (.pyError "ValueError"
          ("could not convert string to float: '" ++ quantity ++ "'")),
         [.summaryPrinted summary])
    | some qtyF =>
      match pyPriceConv price with
      | none =>
          (.error (.pyError "ValueError"
            ("could not convert string to float: '" ++ price.getD "" ++ "'")),
           [.summaryPrinted summary])
      | some priceF =>
        let params := buildParams symbol side order_type qtyF priceF "GTC"
        match place_order transport symbol side order_type qtyF priceF "GTC" with
        | .error m =>
            (.error (.apiError m), [.summaryPrinted summary, .gatewayCalled params])
        | .ok resp =>
            (.ok (parse_order_response resp),
             [.summaryPrinted summary, .gatewayCalled params])

/-- Substring containment on strings, used to state that an error message
preserves a piece of the original information. -/
def strContains (big small : String) : Prop :=
  ∃ pre suf, pre ++ small.data ++ suf = big.data

/-- A parse success implies the input was not the empty string. -/
theorem pyFloat_ne_empty {s : String} {v : PyVal} (h : pyFloat? s = some v) :
    s ≠ "" := by
  intro heq
  subst heq
  rw [show pyFloat? "" = none from rfl] at h
  cases h

/-! ## The claims -/

/-- Claim C5: `validate_all` runs its five sub-checks in the fixed order
symbol, side, order type, quantity, price; it raises exactly the error of the
first failing check (no accumulation), so with several invalid fields the
reported error is the earliest one; when the first four pass, the outcome is
exactly that of the price check. -/
theorem claim_C5 (s sd ot q : String) (p : Option String) :
    (∀ m, validate_symbol s = .error m → validate_all s sd ot q p = .error m) ∧
    (validate_symbol s = .ok () →
      ∀ m, validate_side sd = .error m → validate_all s sd ot q p = .error m) ∧
    (validate_symbol s = .ok () → validate_side sd = .ok () →
      ∀ m, validate_order_type ot = .error m →
        validate_all s sd ot q p = .error m) ∧
    (validate_symbol s = .ok () → validate_side sd = .ok () →
      validate_order_type ot = .ok () →
      ∀ m, validate_quantity q = .error m →
        validate_all s sd ot q p = .error m) ∧
    (validate_symbol s = .ok () → validate_side sd = .ok () →
      validate_order_type ot = .ok () → validate_quantity q = .ok () →
      validate_all s sd ot q p = validate_price p ot) := by
  refine ⟨?_, ?_, ?_, ?_, ?_⟩
  · intro m h; unfold validate_all; rw [h]
  · intro h1 m h; unfold validate_all; rw [h1, h]
  · intro h1 h2 m h; unfold validate_all; rw [h1, h2, h]
  · intro h1 h2 h3 m h; unfold validate_all; rw [h1, h2, h3, h]
  · intro h1 h2 h3 h4; unfold validate_all; rw [h1, h2, h3, h4]

/-- Witness for C5 at a request with two invalid fields (symbol `XYZ` and
side `FOO`): the error raised is the symbol error, the earliest in the fixed
order, although the side check would also fail. -/
theorem claim_C5_witness :
    validate_all "XYZ" "FOO" "MARKET" "1" none =
      .error "Invalid symbol format: 'XYZ'. Expected format: XXXUSDT (e.g., BTCUSDT, ETHUSDT)" ∧
    validate_side "FOO" = .error "Invalid side: 'FOO'. Allowed values: BUY, SELL" :=
  ⟨(claim_C5 "XYZ" "FOO" "MARKET" "1" none).1 _ (by decide), by decide⟩

/-- Claim C4: whenever validation fails, `execute_order` raises exactly that
`ValidationError` and performs nothing else — the order summary is not
printed and the gateway is never invoked (empty event trace). -/
theorem claim_C4 (transport : OrderParams → Except NativeExc Response)
    (s sd ot q : String) (p : Option String) (m : String)
    (h : validate_all s sd ot q p = .error m) :
    execute_order transport s sd ot q p = (.error (.validationError m), []) := by
  unfold execute_order
  rw [h]

/-- Witness for C4 at the spec's example request (symbol `XYZ`, side `BUY`,
type `MARKET`, quantity `1`): a `ValidationError` mentioning `XYZ` is raised,
and the trace is empty, so the gateway was never called. -/
theorem claim_C4_witness :
    execute_order (fun _ => .ok []) "XYZ" "BUY" "MARKET" "1" none =
      (.error (.validationError
        "Invalid symbol format: 'XYZ'. Expected format: XXXUSDT (e.g., BTCUSDT, ETHUSDT)"), []) ∧
    strContains
      "Invalid symbol format: 'XYZ'. Expected format: XXXUSDT (e.g., BTCUSDT, ETHUSDT)"
      "XYZ" :=
  ⟨claim_C4 (fun _ => .ok []) "XYZ" "BUY" "MARKET" "1" none _ (by decide),
   ⟨"Invalid symbol format: '".data,
    "'. Expected format: XXXUSDT (e.g., BTCUSDT, ETHUSDT)".data, by decide⟩⟩

/-- Claim C7: for a LIMIT order, price validation fails when the price is
absent or empty (falsy), non-numeric, or parses to a value comparing `<= 0`
(zero or negative), and succeeds for every price string parsing to a
strictly positive finite number. -/
theorem claim_C7 (p : Option String) (t : String) (h : pyUpper t = "LIMIT") :
    (pyTruthyOpt p = false →
      validate_price p t = .error "Price is required for LIMIT orders") ∧
    (∀ s, p = some s → s ≠ "" → pyFloat? s = none →
      validate_price p t = .error ("Price must be numeric, got: '" ++ s ++ "'")) ∧
    (∀ s v, p = some s → pyFloat? s = some v → v.le0 = true →
      validate_price p t = .error ("Price must be positive, got: " ++ pyFloatRepr v)) ∧
    (∀ s qv, p = some s → pyFloat? s = some (.finite false qv) → 0 < qv →
      validate_price p t = .ok ()) := by
  refine ⟨?_, ?_, ?_, ?_⟩
  · intro hfal
    unfold validate_price
    rw [h, if_pos rfl, hfal]
    rfl
  · rintro s rfl hs hparse
    unfold validate_price
    rw [h, if_pos rfl]
    simp [pyTruthyOpt, hs, hparse]
  · rintro s v rfl hparse hle
    have hs : s ≠ "" := pyFloat_ne_empty hparse
    unfold validate_price
    rw [h, if_pos rfl]
    simp [pyTruthyOpt, hs, hparse, hle]
  · rintro s qv rfl hparse hq
    have hs : s ≠ "" := pyFloat_ne_empty hparse
    have hle : (PyVal.finite false qv).le0 = false := by
      simp [PyVal.le0, not_le.mpr hq]
    unfold validate_price
    rw [h, if_pos rfl]
    simp [pyTruthyOpt, hs, hparse, hle]

/-- Witness for C7 at the spec's examples: price `2000` passes, `-5` fails,
and the empty price fails, all for a LIMIT order. -/
theorem claim_C7_witness :
    validate_price (some "2000") "LIMIT" = .ok () ∧
    validate_price (some "-5") "LIMIT" = .error "Price must be positive, got: -5.0" ∧
    validate_price (some "") "LIMIT" = .error "Price is required for LIMIT orders" :=
  ⟨(claim_C7 (some "2000") "LIMIT" (by decide)).2.2.2 "2000" 2000 rfl (by decide) (by decide),
   ((claim_C7 (some "-5") "LIMIT" (by decide)).2.2.1 "-5"
      (.finite true (Rat.divInt 5 1)) rfl (by decide) (by decide)).trans (by decide),
   (claim_C7 (some "") "LIMIT" (by decide)).1 (by decide)⟩

/-- Claim C8: for a MARKET order the price is never checked — `validate_price`
always succeeds, whatever the supplied price contains, and the outcome of
`validate_all` does not depend on the price argument at all. -/
theorem claim_C8 (p : Option String) (s sd t q : String)
    (h : pyUpper t = "MARKET") :
    validate_price p t = .ok () ∧
    validate_all s sd t q p = validate_all s sd t q none := by
  have hp : ∀ pp : Option String, validate_price pp t = .ok () := by
    intro pp
    unfold validate_price
    rw [h]
    rfl
  refine ⟨hp p, ?_⟩
  unfold validate_all
  cases validate_symbol s with
  | error m => rfl
  | ok u =>
    cases validate_side sd with
    | error m => rfl
    | ok u2 =>
      cases validate_order_type t with
      | error m => rfl
      | ok u3 =>
        cases validate_quantity q with
        | error m => rfl
        | ok u4 => rw [hp p, hp none]

/-- Witness for C8 at the spec's example: a MARKET order carrying the junk
price `50000` still passes validation in full. -/
theorem claim_C8_witness :
    validate_price (some "50000") "MARKET" = .ok () ∧
    validate_all "BTCUSDT" "BUY" "MARKET" "1" (some "50000") = .ok () := by
  have h := claim_C8 (some "50000") "BTCUSDT" "BUY" "MARKET" "1" (by decide)
  exact ⟨h.1, h.2.trans (by decide)⟩

/-- Counterexample to C6 as stated: the claim requires every non-finite
input to fail quantity validation, but `nan` and `inf` are parsed by
`float()` to non-finite values whose comparison `<= 0` is false, so
`validate_quantity` accepts both. -/
theorem claim_C6_counterexample :
    validate_quantity "nan" = .ok () ∧ pyFloat? "nan" = some PyVal.nan ∧
    validate_quantity "inf" = .ok () ∧ pyFloat? "inf" = some (PyVal.inf false) := by
  refine ⟨by decide, by decide, by decide, by decide⟩

/-- Claim C6 (amended): `validate_quantity` succeeds exactly when the string
is non-empty and parses as a Python float whose value does not compare
`<= 0` under IEEE rules — so besides strictly positive finite values, `inf`
and `nan` are accepted, while positive literals that underflow to `0.0`
(such as `1e-400`) are rejected like zero. Failures raise `ValidationError`
with the empty-quantity message, the non-numeric message quoting the
offending string, or the non-positive message showing the parsed value in
CPython's float formatting. -/
theorem claim_C6 (s : String) :
    ((validate_quantity s = .ok ()) ↔
      (s ≠ "" ∧ ∃ v, pyFloat? s = some v ∧ v.le0 = false)) ∧
    (s = "" → validate_quantity s = .error "Quantity cannot be empty") ∧
    (s ≠ "" → pyFloat? s = none →
      validate_quantity s = .error ("Quantity must be numeric, got: '" ++ s ++ "'")) ∧
    (∀ v, pyFloat? s = some v → v.le0 = true →
      validate_quantity s = .error ("Quantity must be positive, got: " ++ pyFloatRepr v)) := by
  refine ⟨⟨?_, ?_⟩, ?_, ?_, ?_⟩
  · intro hok
    by_cases hs : s = ""
    · simp [validate_quantity, hs] at hok
    · refine ⟨hs, ?_⟩
      cases hv : pyFloat? s with
      | none => simp [validate_quantity, hs, hv] at hok
      | some v =>
        cases hlv : v.le0 with
        | false => exact ⟨v, rfl, hlv⟩
        | true => simp [validate_quantity, hs, hv, hlv] at hok
  · rintro ⟨hs, v, hv, hlv⟩
    simp [validate_quantity, hs, hv, hlv]
  · intro hs
    subst hs
    rfl
  · intro hs hv
    simp [validate_quantity, hs, hv]
  · intro v hv hlv
    have hs : s ≠ "" := pyFloat_ne_empty hv
    simp [validate_quantity, hs, hv, hlv]

/-- Witness for C6 (amended) at quantity `0` (rejected, with the message
showing the parsed value `0.0`) and quantity `1` (accepted). -/
theorem claim_C6_witness :
    validate_quantity "0" = .error "Quantity must be positive, got: 0.0" ∧
    validate_quantity "1" = .ok () :=
  ⟨((claim_C6 "0").2.2.2 (.finite false (Rat.divInt 0 1)) (by decide) (by decide)).trans
     (by decide),
   (claim_C6 "1").1.mpr ⟨by decide, .finite false (Rat.divInt 1 1), by decide, by decide⟩⟩

/-- Claim C2: whenever the transport raises, `place_order` raises exactly one
`APIError` (the `GatewayError` of the spec) — the native exception cannot
escape — whose message contains the original exception's message, and its
status code as well for the API-exception family that exposes one. -/
theorem claim_C2 (transport : OrderParams → Except NativeExc Response)
    (s sd ot : String) (qv : PyVal) (pf : Option PyVal) (tif : String)
    (e : NativeExc)
    (h : transport (buildParams s sd ot qv pf tif) = .error e) :
    place_order transport s sd ot qv pf tif = .error (formatNativeExc e) ∧
    strContains (formatNativeExc e) e.message ∧
    (∀ c m, e = .apiExc c m → strContains (formatNativeExc e) (toString c)) := by
  refine ⟨?_, ?_, ?_⟩
  · unfold place_order
    rw [h]
  · cases e with
    | apiExc c m =>
      exact ⟨("Binance API Error (" ++ toString c ++ "): ").data, [],
        by simp [formatNativeExc, NativeExc.message, String.data_append]⟩
    | requestExc m =>
      exact ⟨"Binance Request Error: ".data, [],
        by simp [formatNativeExc, NativeExc.message, String.data_append]⟩
    | otherExc m =>
      exact ⟨"Unexpected error during order placement: ".data, [],
        by simp [formatNativeExc, NativeExc.message, String.data_append]⟩
  · rintro c m rfl
    exact ⟨"Binance API Error (".data, ("): " ++ m).data,
      by simp [formatNativeExc, String.data_append]⟩

/-- Witness for C2 at a concrete transport failure (status code 400,
message `Invalid symbol.`): one `APIError` whose message embeds both the
status code and the native message. -/
theorem claim_C2_witness :
    place_order (fun _ => .error (.apiExc 400 "Invalid symbol."))
        "BTCUSDT" "BUY" "MARKET" (.finite false (Rat.divInt 1 1)) none "GTC" =
      .error "Binance API Error (400): Invalid symbol." ∧
    strContains "Binance API Error (400): Invalid symbol." "Invalid symbol." ∧
    strContains "Binance API Error (400): Invalid symbol." "400" := by
  have h := claim_C2 (fun _ => .error (.apiExc 400 "Invalid symbol."))
    "BTCUSDT" "BUY" "MARKET" (.finite false (Rat.divInt 1 1)) none "GTC"
    (.apiExc 400 "Invalid symbol.") rfl
  refine ⟨h.1.trans (by decide), ?_, ?_⟩
  · exact ⟨"Binance API Error (400): ".data, [], by decide⟩
  · exact ⟨"Binance API Error (".data, "): Invalid symbol.".data, by decide⟩

/-- Claim C3: for every validated order reaching the gateway, the request
passed to the transport carries price and timeInForce exactly when the order
type is LIMIT (timeInForce being the `"GTC"` default `execute_order` leaves
in place), and otherwise consists precisely of the symbol, uppercased side,
uppercased type, and numeric quantity, with no price or timeInForce key. -/
theorem claim_C3 (transport : OrderParams → Except NativeExc Response)
    (s sd ot q : String) (p : Option String)
    (hval : validate_all s sd ot q p = .ok ())
    (qv : PyVal) (hq : pyFloat? q = some qv)
    (pf : Option PyVal) (hp : pyPriceConv p = some pf) :
    (execute_order transport s sd ot q p).2 =
      [.summaryPrinted (generate_order_summary s sd ot q p),
       .gatewayCalled (buildParams s sd ot qv pf "GTC")] ∧
    (pyUpper ot = "LIMIT" →
      buildParams s sd ot qv pf "GTC" =
        { symbol := s, side := pyUpper sd, type := pyUpper ot, quantity := qv,
          price := some pf, timeInForce := some "GTC" }) ∧
    (pyUpper ot ≠ "LIMIT" →
      buildParams s sd ot qv pf "GTC" =
        { symbol := s, side := pyUpper sd, type := pyUpper ot, quantity := qv,
          price := none, timeInForce := none }) := by
  refine ⟨?_, ?_, ?_⟩
  · unfold execute_order
    rw [hval, hq, hp]
    dsimp only
    unfold place_order
    cases transport (buildParams s sd ot qv pf "GTC") with
    | error e => rfl
    | ok resp => rfl
  · intro hL
    unfold buildParams
    rw [hL, if_pos rfl]
  · intro hNL
    unfold buildParams
    rw [if_neg hNL]

/-- Witness for C3: a LIMIT execution passes price and `timeInForce = GTC`
to the transport, a MARKET execution passes exactly the four base fields. -/
theorem claim_C3_witness :
    (execute_order (fun _ => .ok []) "BTCUSDT" "sell" "limit" "10" (some "2000")).2 =
      [.summaryPrinted { symbol := "BTCUSDT", side := "SELL", type := "LIMIT",
                         quantity := "10", price := some "2000" },
       .gatewayCalled { symbol := "BTCUSDT", side := "SELL", type := "LIMIT",
                        quantity := .finite false (Rat.divInt 10 1),
                        price := some (some (.finite false (Rat.divInt 2000 1))),
                        timeInForce := some "GTC" }] ∧
    (execute_order (fun _ => .ok []) "BTCUSDT" "buy" "market" "1" none).2 =
      [.summaryPrinted { symbol := "BTCUSDT", side := "BUY", type := "MARKET",
                         quantity := "1", price := some "Market Price" },
       .gatewayCalled { symbol := "BTCUSDT", side := "BUY", type := "MARKET",
                        quantity := .finite false (Rat.divInt 1 1),
                        price := none, timeInForce := none }] := by
  constructor
  · have h := claim_C3 (fun _ => .ok []) "BTCUSDT" "sell" "limit" "10" (some "2000")
      (by decide) (.finite false (Rat.divInt 10 1)) (by decide)
      (some (.finite false (Rat.divInt 2000 1))) (by decide)
    exact h.1.trans (by decide)
  · have h := claim_C3 (fun _ => .ok []) "BTCUSDT" "buy" "market" "1" none
      (by decide) (.finite false (Rat.divInt 1 1)) (by decide) none (by decide)
    exact h.1.trans (by decide)

/-- Claim C1 fails on the code: for the request (symbol `BTCUSDT`, side
`BUY`, type `MARKET`, quantity `1`, price `abc`) validation succeeds (a
MARKET price is ignored), the summary is printed, and then step 3 evaluates
`float("abc")`, whose `ValueError` is neither `ValidationError` nor
`APIError` and is caught nowhere in `execute_order` — an untyped exception
escapes, for every transport. -/
theorem claim_C1 (transport : OrderParams → Except NativeExc Response) :
    execute_order transport "BTCUSDT" "BUY" "MARKET" "1" (some "abc") =
      (.error (.pyError "ValueError" "could not convert string to float: 'abc'"),
       [.summaryPrinted { symbol := "BTCUSDT", side := "BUY", type := "MARKET",
                          quantity := "1", price := some "Market Price" }]) := by
  unfold execute_order
  rw [show validate_all "BTCUSDT" "BUY" "MARKET" "1" (some "abc") = .ok () from by decide,
    show pyFloat? "1" = some (.finite false (Rat.divInt 1 1)) from by decide]
  dsimp only
  rw [show pyPriceConv (some "abc") = none from by decide]
  rfl

/-- Claim C9 fails on the code: even when the transport call succeeds,
`get_order` and `get_account_info` never return the response — the missing
`import json` makes their success-path debug logging raise `NameError`,
which the catch-all converts into `APIError`; the translation of genuine
transport failures to `APIError` does hold. -/
theorem claim_C9 (resp : Response) (sym : String) (order_id : Int) (e : NativeExc) :
    get_order (.ok resp) sym order_id =
      .error ("Error retrieving order " ++ toString order_id ++
        ": name 'json' is not defined") ∧
    get_account_info (.ok resp) =
      .error "Error retrieving account information: name 'json' is not defined" ∧
    get_order (.error e) sym order_id =
      .error ("Error retrieving order " ++ toString order_id ++ ": " ++ e.strRepr) ∧
    get_account_info (.error e) =
      .error ("Error retrieving account information: " ++ e.strRepr) :=
  ⟨rfl, rfl, rfl, rfl⟩

/-- Claim C10: when validation and the numeric conversions succeed and the
transport returns a response dictionary, `execute_order` returns a result
with `success = True` unconditionally and exactly the nine echoed fields,
each the `.get` of its response key (`origQty`, `executedQty` and
`updateTime` feeding `quantity`, `executedQuantity` and `timestamp`), `None`
whenever the key is absent. -/
theorem claim_C10 (transport : OrderParams → Except NativeExc Response)
    (s sd ot q : String) (p : Option String)
    (hval : validate_all s sd ot q p = .ok ())
    (qv : PyVal) (hq : pyFloat? q = some qv)
    (pf : Option PyVal) (hp : pyPriceConv p = some pf)
    (resp : Response)
    (htr : transport (buildParams s sd ot qv pf "GTC") = .ok resp) :
    (execute_order transport s sd ot q p).1 =
      .ok { success := true,
            orderId := respGet resp "orderId",
            symbol := respGet resp "symbol",
            side := respGet resp "side",
            type := respGet resp "type",
            quantity := respGet resp "origQty",
            price := respGet resp "price",
            status := respGet resp "status",
            executedQuantity := respGet resp "executedQty",
            timestamp := respGet resp "updateTime" } := by
  unfold execute_order
  rw [hval, hq, hp]
  dsimp only
  unfold place_order
  rw [htr]
  rfl

/-- Witness for C10 at the empty response dictionary: the result still has
`success = True` while every echoed field, `orderId` and `status` included,
is `None`. -/
theorem claim_C10_witness :
    (execute_order (fun _ => .ok []) "BTCUSDT" "buy" "market" "1" none).1 =
      .ok { success := true, orderId := none, symbol := none, side := none,
            type := none, quantity := none, price := none, status := none,
            executedQuantity := none, timestamp := none } := by
  have h := claim_C10 (fun _ => .ok []) "BTCUSDT" "buy" "market" "1" none
    (by decide) (.finite false (Rat.divInt 1 1)) (by decide) none (by decide) [] rfl
  exact h.trans (by decide)

end TradingBot
